import Mathlib

/-!
# VoodooPS2Daemon: the USB mouse presence monitor

A shallow embedding of `src/VoodooPS2Daemon/main.cpp`.  The daemon is a
single-threaded callback program: `DeviceAdded` is run over every batch of
newly matched USB devices, `DeviceNotification` is run for every interest
message of a node the daemon subscribed to, and `main` sets both up.

The C globals and the part of the environment the callbacks act on (the heap of
`NotificationData` records, the interest notifications registered with I/O Kit,
standard output, the sequence of library calls) are the fields of `World`; the
C functions are functions on `World`.  `DeviceAdded` is total; `DeviceNotification`
dereferences its `refCon` and has a result only when that is a record
(`Option World`).  What the environment answers to a library call (a
`kern_return_t`, the name of a node, whether `malloc` found memory) is part of
the input of the function that makes the call.
-/

namespace VoodooPS2Daemon

/-! ## Values of the C program -/

/-- The `kern_return_t` of Mach: a C `int`. -/
abbrev kern_return_t := Int

/-- An `io_object_t` / `io_service_t` / `io_iterator_t`: a Mach port name, `0` is the null object. -/
abbrev io_object_t := Nat

/-- A pointer into the C heap, `0` is `NULL`. -/
abbrev Ptr := Nat

/-- Modelled from the spec: `KERN_SUCCESS` of `<mach/kern_return.h>`, the header is not part of
the sources; it is the zero return code. -/
def KERN_SUCCESS : kern_return_t := 0

/-- Modelled from the spec: `kIOMessageServiceIsTerminated` of `<IOKit/IOMessage.h>`, the
"service terminated" message kind; the header is not part of the sources.  The value is the
one of the header, `iokit_common_msg(0x010)`; the development only ever compares with it. -/
def kIOMessageServiceIsTerminated : Nat := 0xe0000010

/-- The string literal `"IOHIDPointing"` of the source as its sequence of character codes
(without the terminating NUL). -/
def IOHIDPointing : List Nat := [73, 79, 72, 73, 68, 80, 111, 105, 110, 116, 105, 110, 103]

/-- C `strcmp` on two character buffers.  A buffer is read up to its first NUL; the end of the
list counts as the terminator.  The result is zero when the two C strings are equal and the
difference of the first differing characters otherwise. -/
def strcmp : List Nat → List Nat → Int
  | [], [] => 0
  | [], b :: _ => 0 - (b : Int)
  | a :: _, [] => (a : Int)
  | a :: as, b :: bs =>
    if a = b then (if a = 0 then 0 else strcmp as bs) else (a : Int) - (b : Int)

/-- The C string held by a character buffer: the characters before the first NUL. -/
def cstr (buf : List Nat) : List Nat := buf.takeWhile (fun c => c ≠ 0)

/-- The record of the source, `struct NotificationData { io_object_t notification; }`.
After `malloc` the field is not initialised (`none`); a successful
`IOServiceAddInterestNotification` writes the notification object into it. -/
structure NotificationData where
  notification : Option io_object_t
deriving DecidableEq, Repr

/-- One `printf` of the program: the format string it uses together with its argument. -/
inductive LogLine where
  /-- The line `"mouse count is now: %d\n"`. -/
  | mouseCount (n : Int)
  /-- The line `"IORegistryEntryCreateIterator returned 0x%08x\n"`. -/
  | createIteratorReturned (kr : kern_return_t)
  /-- The line `"IOServiceAddInterestNotification returned 0x%08x\n"`. -/
  | addInterestReturned (kr : kern_return_t)
  /-- The line `"Could not establish new SIGINT handler\n"`. -/
  | noSigint
  /-- The line `"Could not establish new SIGTERM handler\n"`. -/
  | noSigterm
  /-- The line `"ERR: Couldn't create a master IOKit Port(%08x)\n"`. -/
  | noMasterPort (kr : kern_return_t)
  /-- The line `"Can't create a USB matching dictionary\n"`. -/
  | noMatchingDict
  /-- The line `"Unexpectedly back from CFRunLoopRun()!\n"`. -/
  | backFromRunLoop
deriving DecidableEq, Repr

/-- One call of a library function with an effect on the environment, in the order of the calls. -/
inductive Call where
  | IORegistryEntryCreateIterator (service : io_object_t)
  | IORegistryEntryGetName (entry : io_object_t)
  | malloc
  | IOServiceAddInterestNotification (service : io_object_t) (refCon : Ptr)
  | IOObjectRelease (object : io_object_t)
  | free (p : Ptr)
deriving DecidableEq, Repr

/-- The state the callbacks act on.

`g_MouseCount` is the global of the source.  It is a C `int`; the model takes the mathematical
integer.  Signed overflow has no defined behaviour in C, and the counter is the number of
registered interest notifications (`runLoop_coherent`), each of which holds a heap record and a
kernel object, so it does not come near `2^31`. -/
structure World where
  /-- The global `static int g_MouseCount`. -/
  g_MouseCount : Int
  /-- The `NotificationData` records that were allocated and not freed, with their address. -/
  heap : List (Ptr × NotificationData)
  /-- The interest notifications registered with I/O Kit and not released: the notification
  object and the `refCon` it passes to `DeviceNotification`. -/
  interests : List (io_object_t × Ptr)
  /-- The next address `malloc` hands out: always a block that was never handed out before. -/
  nextPtr : Ptr
  /-- The next notification object I/O Kit creates. -/
  nextObject : io_object_t
  /-- Standard output, oldest line first. -/
  out : List LogLine
  /-- The calls made so far, oldest first. -/
  calls : List Call
deriving DecidableEq, Repr

/-- The state at program start: `g_MouseCount = 0`, no record, no registration, no output.
Addresses and objects start at 1, `0` being `NULL`. -/
def World.start : World :=
  { g_MouseCount := 0, heap := [], interests := [], nextPtr := 1, nextObject := 1,
    out := [], calls := [] }

/-- Append a line to standard output. -/
def World.printf (w : World) (l : LogLine) : World := { w with out := w.out ++ [l] }

/-- Record a library call. -/
def World.call (w : World) (c : Call) : World := { w with calls := w.calls ++ [c] }

/-- The field `pData->notification` of the record at address `p`, when `p` is an allocated record
whose field was written. -/
def World.notificationOf (w : World) (p : Ptr) : Option io_object_t :=
  match w.heap.lookup p with
  | some d => d.notification
  | none => none

/-- The live Subscription Records: the `refCon`s of the registered interest notifications. -/
def World.live (w : World) : List Ptr := w.interests.map Prod.snd

/-- The addresses of the allocated records. -/
def World.allocated (w : World) : List Ptr := w.heap.map Prod.fst

/-! ## `DeviceNotification` (lines 42-53) -/

/-- The function `DeviceNotification(refCon, service, messageType, messageArgument)`.

On the "service terminated" message: the guarded decrement and the `printf` (lines 47-49),
then, unconditionally, `IOObjectRelease(pData->notification)` and `free(pData)` (lines 50-51).
Line 50 reads the field of the record `pData` points to.  When `refCon` is the address of an
allocated record whose field was written, the notification object in it is released, which
ends its registration, and the record is taken off the heap.  When `refCon` is anything else
(no record, a record already freed, a record whose field was never written) lines 50-51 read
and free memory the C program has no right to: the source has no defined behaviour there and
the function has no result (`none`).  I/O Kit only calls back with a `refCon` that was
registered at line 86, so these are callbacks the program does not receive.

On every other message the function does nothing. -/
def DeviceNotification (refCon : Ptr) (service : io_object_t) (messageType : Nat)
    (messageArgument : Nat) (w : World) : Option World :=
  let _ := service
  let _ := messageArgument
  if kIOMessageServiceIsTerminated = messageType then
    let w := if w.g_MouseCount ≠ 0 then { w with g_MouseCount := w.g_MouseCount - 1 } else w
    let w := w.printf (.mouseCount w.g_MouseCount)
    match w.notificationOf refCon with
    | none => none
    | some n =>
      let w :=
        { (w.call (.IOObjectRelease n)) with interests := w.interests.filter (fun i => i.1 ≠ n) }
      some { (w.call (.free refCon)) with heap := w.heap.filter (fun r => r.1 ≠ refCon) }
  else some w

/-! ## `DeviceAdded` (lines 61-99) -/

/-- A node delivered by the recursive registry iterator `iter2`, with what the environment
answers to the calls made on it. -/
structure Node where
  /-- The `io_service_t temp` returned by `IOIteratorNext(iter2)`. -/
  temp : io_object_t
  /-- The return code of `IORegistryEntryGetName(temp, name)`. -/
  nameKr : kern_return_t
  /-- The buffer `io_name_t name` after the call. -/
  name : List Nat
  /-- Whether `malloc` returns a block (`false`: it returns `NULL`). -/
  mallocOk : Bool
  /-- The return code of `IOServiceAddInterestNotification`. -/
  interestKr : kern_return_t
deriving DecidableEq, Repr

/-- A top-level device delivered by `IOIteratorNext(iter1)`. -/
structure Device where
  /-- The `io_service_t service`. -/
  service : io_object_t
  /-- The return code of `IORegistryEntryCreateIterator`. -/
  iterKr : kern_return_t
  /-- The nodes `iter2` delivers when it was created. -/
  nodes : List Node
deriving DecidableEq, Repr

/-- The body of the inner `while` loop (lines 76-95) for one node `temp`. -/
def nodeBody (n : Node) (w : World) : World :=
  let w := w.call (.IORegistryEntryGetName n.temp)
  if KERN_SUCCESS ≠ n.nameKr then w
  else if 0 = strcmp IOHIDPointing n.name then
    let w := w.call .malloc
    if n.mallocOk = false then w
    else
      let pData := w.nextPtr
      let w := { w with heap := (pData, ⟨none⟩) :: w.heap, nextPtr := w.nextPtr + 1 }
      let w := w.call (.IOServiceAddInterestNotification n.temp pData)
      if KERN_SUCCESS ≠ n.interestKr then w.printf (.addInterestReturned n.interestKr)
      else
        let obj := w.nextObject
        let w := { w with
          heap := (pData, ⟨some obj⟩) :: w.heap.filter (fun r => r.1 ≠ pData)
          interests := (obj, pData) :: w.interests
          nextObject := w.nextObject + 1 }
        let w := { w with g_MouseCount := w.g_MouseCount + 1 }
        let w := w.printf (.mouseCount w.g_MouseCount)
        w.call (.IOObjectRelease n.temp)
  else w.call (.IOObjectRelease n.temp)

/-- The inner loop `while ((temp = IOIteratorNext(iter2)))` over the nodes of one device. -/
def nodeLoop : List Node → World → World
  | [], w => w
  | n :: ns, w => nodeLoop ns (nodeBody n w)

/-- The body of the outer `while` loop (lines 65-97) for one device `service`. -/
def deviceBody (d : Device) (w : World) : World :=
  let w := w.call (.IORegistryEntryCreateIterator d.service)
  if KERN_SUCCESS ≠ d.iterKr then w.printf (.createIteratorReturned d.iterKr)
  else
    let w := nodeLoop d.nodes w
    w.call (.IOObjectRelease d.service)

/-- The function `DeviceAdded(refCon, iter1)`: the outer loop
`while ((service = IOIteratorNext(iter1)))` over the devices of the batch. -/
def DeviceAdded : List Device → World → World
  | [], w => w
  | d :: ds, w => DeviceAdded ds (deviceBody d w)

/-! ## The event loop and `main` (lines 128-181) -/

/-- A callback the run loop makes: `DeviceAdded` for a batch of newly matched devices, or
`DeviceNotification` for an interest message. -/
inductive Event where
  | arrival (iter1 : List Device)
  | interest (refCon : Ptr) (service : io_object_t) (messageType : Nat) (messageArgument : Nat)
deriving DecidableEq, Repr

/-- Run the callback of one event. -/
def dispatch : Event → World → Option World
  | .arrival iter1, w => some (DeviceAdded iter1 w)
  | .interest refCon service messageType messageArgument, w =>
    DeviceNotification refCon service messageType messageArgument w

/-- The callbacks `CFRunLoopRun` makes for a finite sequence of events, one after the other on
the single thread of the program.  The run has a result when every callback has one. -/
def runLoop : List Event → World → Option World
  | [], w => some w
  | e :: es, w =>
    match dispatch e w with
    | some w' => runLoop es w'
    | none => none

/-- What the environment answers to the calls of `main`. -/
structure Startup where
  /-- Whether `signal(SIGINT, ..)` returns `SIG_ERR`. -/
  sigintErr : Bool
  /-- Whether `signal(SIGTERM, ..)` returns `SIG_ERR`. -/
  sigtermErr : Bool
  /-- The return code of `IOMasterPort`. -/
  masterKr : kern_return_t
  /-- The port `IOMasterPort` stores in `masterPort` (`0`: none). -/
  masterPort : Nat
  /-- The dictionary returned by `IOServiceMatching` (`0`: `NULL`). -/
  matchingDict : Ptr
  /-- The port returned by `IONotificationPortCreate` (`0`: `NULL`). -/
  notifyPort : Ptr
  /-- The return code of `IOServiceAddMatchingNotification`. -/
  matchingKr : kern_return_t
  /-- The devices `g_AddedIter` delivers to the first `DeviceAdded`. -/
  addedIter : List Device
  /-- The events `CFRunLoopRun` dispatches before it returns. -/
  events : List Event
deriving DecidableEq, Repr

/-- How `main` ended. -/
structure Exit where
  /-- The value `main` returns: the exit status of the process. -/
  status : Int
  /-- Whether `DeviceAdded(NULL, g_AddedIter)` was run (line 168). -/
  ranDeviceAdded : Bool
  /-- Whether `CFRunLoopRun()` was entered (line 175). -/
  ranRunLoop : Bool
  /-- The state at the end. -/
  world : World
deriving DecidableEq, Repr

/-- The function `main`.  The run loop is modelled for a finite sequence of events after which
`CFRunLoopRun` returns; the real one only returns when the loop is stopped.  The function has
a result when the callbacks of the run loop have one. -/
def main (s : Startup) : Option Exit :=
  let w := World.start
  let w := if s.sigintErr then w.printf .noSigint else w
  let w := if s.sigtermErr then w.printf .noSigterm else w
  if s.masterKr ≠ 0 ∨ s.masterPort = 0 then
    some { status := -1, ranDeviceAdded := false, ranRunLoop := false,
           world := w.printf (.noMasterPort s.masterKr) }
  else if s.matchingDict = 0 then
    some { status := -1, ranDeviceAdded := false, ranRunLoop := false,
           world := w.printf .noMatchingDict }
  else
    -- g_NotifyPort = IONotificationPortCreate(masterPort): the result is not tested
    -- kr = IOServiceAddMatchingNotification(..): kr is not tested
    let w := DeviceAdded s.addedIter w
    match runLoop s.events w with
    | none => none
    | some w =>
      some { status := 0, ranDeviceAdded := true, ranRunLoop := true,
             world := w.printf .backFromRunLoop }

/-! ## Rendering of the output -/

/-- The digits of `n` in base 16, lower case, least significant first, at least `width` of them
(`fuel` bounds the number of digits). -/
def hexDigitsRev : Nat → Nat → Nat → List Char
  | 0, _, _ => []
  | fuel + 1, width, n =>
    if n = 0 ∧ width = 0 then []
    else Nat.digitChar (n % 16) :: hexDigitsRev fuel (width - 1) (n / 16)

/-- The conversion `%08x` of `printf` applied to an `int`: the value as an unsigned 32-bit
number, in hexadecimal, padded with zeros to eight digits. -/
def hex08 (kr : Int) : String :=
  String.mk (hexDigitsRev 8 8 (kr % 4294967296).toNat).reverse

/-- The text a `printf` of the program writes. -/
def LogLine.render : LogLine → String
  | .mouseCount n => "mouse count is now: " ++ toString n ++ "\n"
  | .createIteratorReturned kr => "IORegistryEntryCreateIterator returned 0x" ++ hex08 kr ++ "\n"
  | .addInterestReturned kr => "IOServiceAddInterestNotification returned 0x" ++ hex08 kr ++ "\n"
  | .noSigint => "Could not establish new SIGINT handler\n"
  | .noSigterm => "Could not establish new SIGTERM handler\n"
  | .noMasterPort kr => "ERR: Couldn't create a master IOKit Port(" ++ hex08 kr ++ ")\n"
  | .noMatchingDict => "Can't create a USB matching dictionary\n"
  | .backFromRunLoop => "Unexpectedly back from CFRunLoopRun()!\n"

/-! ## Quantities the specification speaks about -/

/-- Whether a line reports a failed library call of `DeviceAdded`. -/
def LogLine.isDeviceError : LogLine → Bool
  | .createIteratorReturned _ => true
  | .addInterestReturned _ => true
  | _ => false

/-- A node for which a Subscription Record comes into being: its name was read, the name is
`IOHIDPointing`, the record was allocated and the interest registration succeeded. -/
def Node.subscribed (n : Node) : Bool :=
  decide (n.nameKr = KERN_SUCCESS) && decide (cstr n.name = IOHIDPointing) &&
    n.mallocOk && decide (n.interestKr = KERN_SUCCESS)

/-- The number of Subscription Records a device gives rise to: its subscribed nodes when its
traversal started, none otherwise. -/
def Device.subscribed (d : Device) : Nat :=
  if d.iterKr = KERN_SUCCESS then d.nodes.countP Node.subscribed else 0

/-- The number of Subscription Records a batch gives rise to. -/
def subscribedIn (batch : List Device) : Nat := (batch.map Device.subscribed).sum

/-- The number of Subscription Records created over a sequence of events (`C`). -/
def createdBy : List Event → Nat
  | [] => 0
  | .arrival iter1 :: es => subscribedIn iter1 + createdBy es
  | .interest _ _ _ _ :: es => createdBy es

/-- The number of termination callbacks of a sequence of events (`T`): the calls of
`DeviceNotification` with the "service terminated" message. -/
def terminatedBy : List Event → Nat
  | [] => 0
  | .arrival _ :: es => terminatedBy es
  | .interest _ _ messageType _ :: es =>
    (if messageType = kIOMessageServiceIsTerminated then 1 else 0) + terminatedBy es

/-- Whether every "service terminated" message of the sequence is delivered to a Subscription
Record that is live when the message arrives.  The record is no longer live afterwards, so a
record receives the message at most once.  (The condition is on the `refCon`s alone; that the
callbacks then have a result is part of what is proved from it.) -/
def wellDelivered : List Event → World → Bool
  | [], _ => true
  | .arrival iter1 :: es, w => wellDelivered es (DeviceAdded iter1 w)
  | .interest refCon service messageType messageArgument :: es, w =>
    (decide (messageType ≠ kIOMessageServiceIsTerminated) || decide (refCon ∈ w.live)) &&
      match DeviceNotification refCon service messageType messageArgument w with
      | some w' => wellDelivered es w'
      | none => true

/-- The per-device recoverable errors of a node: its name could not be read, or its name is
`IOHIDPointing`, the record was allocated and the interest registration failed. -/
def Node.errors (n : Node) : Nat :=
  if n.nameKr ≠ KERN_SUCCESS then 1
  else if cstr n.name = IOHIDPointing ∧ n.mallocOk = true ∧ n.interestKr ≠ KERN_SUCCESS then 1
  else 0

/-- The per-device recoverable errors of a device: the traversal could not be started, or else
the errors of its nodes. -/
def Device.errors (d : Device) : Nat :=
  if d.iterKr ≠ KERN_SUCCESS then 1 else (d.nodes.map Node.errors).sum

/-- The per-device recoverable errors of a batch. -/
def errorsIn (batch : List Device) : Nat := (batch.map Device.errors).sum

/-- The number of error lines among the lines of an output. -/
def errorLines (out : List LogLine) : Nat := out.countP LogLine.isDeviceError

/-- The values of the `mouse count is now:` lines of an output, oldest first. -/
def countLines : List LogLine → List Int
  | [] => []
  | .mouseCount n :: ls => n :: countLines ls
  | _ :: ls => countLines ls

/-- The devices on which `IORegistryEntryCreateIterator` was called, in the order of the calls. -/
def devicesVisited : List Call → List io_object_t
  | [] => []
  | .IORegistryEntryCreateIterator s :: cs => s :: devicesVisited cs
  | _ :: cs => devicesVisited cs

/-- The nodes on which `IORegistryEntryGetName` was called, in the order of the calls. -/
def nodesVisited : List Call → List io_object_t
  | [] => []
  | .IORegistryEntryGetName t :: cs => t :: nodesVisited cs
  | _ :: cs => nodesVisited cs

/-- The nodes the registry iterators of a batch deliver: the nodes of every device whose
traversal started. -/
def deliveredNodes : List Device → List Node
  | [] => []
  | d :: ds => (if d.iterKr = KERN_SUCCESS then d.nodes else []) ++ deliveredNodes ds

/-- The errors of a node that `DeviceAdded` reports: its name is `IOHIDPointing`, the record was
allocated and the interest registration failed. -/
def Node.reported (n : Node) : Nat :=
  if n.nameKr = KERN_SUCCESS ∧ cstr n.name = IOHIDPointing ∧ n.mallocOk = true ∧
      n.interestKr ≠ KERN_SUCCESS then 1 else 0

/-- The errors of a device that `DeviceAdded` reports: the traversal could not be started, or
else the reported errors of its nodes. -/
def Device.reported (d : Device) : Nat :=
  if d.iterKr ≠ KERN_SUCCESS then 1 else (d.nodes.map Node.reported).sum

/-- The errors of a batch that `DeviceAdded` reports. -/
def reportedIn (batch : List Device) : Nat := (batch.map Device.reported).sum

/-- The heap, the registrations and the counter fit together: the counter is the number of
registrations, no notification object is registered twice, the record of every registration is
on the heap and holds its notification object, every record whose field was written belongs
to a registration, and the allocators are ahead of everything they handed out. -/
structure Coherent (w : World) : Prop where
  count : w.g_MouseCount = (w.interests.length : Int)
  nodup : (w.interests.map Prod.fst).Nodup
  stored : ∀ i ∈ w.interests, w.heap.lookup i.2 = some ⟨some i.1⟩
  written : ∀ r ∈ w.heap, ∀ n, r.2.notification = some n → (n, r.1) ∈ w.interests
  objects : ∀ i ∈ w.interests, i.1 < w.nextObject
  blocks : ∀ r ∈ w.heap, r.1 < w.nextPtr

/-- The counter after the guarded decrement `if (g_MouseCount) --g_MouseCount;` of lines 47-48. -/
def decremented (c : Int) : Int := if c ≠ 0 then c - 1 else c

/-! ## Concrete inputs -/

/-- The character codes of a string. -/
def bytes (s : String) : List Nat := s.toList.map Char.toNat

/-- A node with a readable name for which `malloc` and the interest registration succeed. -/
def namedNode (temp : io_object_t) (name : String) : Node :=
  { temp := temp, nameKr := KERN_SUCCESS, name := bytes name ++ [0], mallocOk := true,
    interestKr := KERN_SUCCESS }

/-- A USB mouse: a device whose subtree holds an interface node and an `IOHIDPointing` node. -/
def usbMouse (service : io_object_t) : Device :=
  { service := service, iterKr := KERN_SUCCESS,
    nodes := [namedNode (service + 1) "IOUSBInterface", namedNode (service + 2) "IOHIDPointing"] }

/-- A USB storage device: no node of its subtree is an `IOHIDPointing`. -/
def usbStorage (service : io_object_t) : Device :=
  { service := service, iterKr := KERN_SUCCESS,
    nodes := [namedNode (service + 1) "IOUSBInterface",
      namedNode (service + 2) "IOUSBMassStorageClass"] }

/-- The scenario of the specification: nothing is plugged in at startup, a mouse arrives, it
is unplugged, two mice arrive in one batch, the second of them is unplugged.  The records get
the addresses 1, 2 and 3 in the order of their allocation. -/
def plugScenario : List Event :=
  [.arrival [],
   .arrival [usbMouse 10],
   .interest 1 12 kIOMessageServiceIsTerminated 0,
   .arrival [usbMouse 20, usbMouse 30],
   .interest 3 32 kIOMessageServiceIsTerminated 0]

/-- A termination callback with a `refCon` that is no record, followed by the arrival of a
mouse. -/
def strayThenPlug : List Event :=
  [.interest 1 12 kIOMessageServiceIsTerminated 0, .arrival [usbMouse 10]]

/-- A termination callback delivered twice to the record of one mouse. -/
def deliveredTwice : List Event :=
  [.arrival [usbMouse 10], .interest 1 12 kIOMessageServiceIsTerminated 0,
   .interest 1 12 kIOMessageServiceIsTerminated 0]

/-- Modelled from the spec: `kIOMessageServiceIsRequestingClose` of `<IOKit/IOMessage.h>`, one of
the other message kinds an interest notification delivers; the header is not part of the
sources. -/
def kIOMessageServiceIsRequestingClose : Nat := 0xe0000100

/-- The calls made between the state `w` and the later state `w'`. -/
def newCalls (w w' : World) : List Call := w'.calls.drop w.calls.length

/-- Modelled from the spec: `kIOReturnError` of `<IOKit/IOReturn.h>`, the general error code of
I/O Kit (`0xe00002bc` as a C `int`); the header is not part of the sources. -/
def kIOReturnError : kern_return_t := -536870212

/-- A batch of one device with one `IOHIDPointing` node whose record is allocated and whose
interest registration is refused. -/
def refusedMouse : List Device :=
  [{ service := 10, iterKr := KERN_SUCCESS,
     nodes := [{ temp := 12, nameKr := KERN_SUCCESS, name := bytes "IOHIDPointing" ++ [0],
                 mallocOk := true, interestKr := kIOReturnError }] }]

/-- A start of `main` in which everything succeeds except the registration of the arrival
notification: `IOServiceAddMatchingNotification` returns `kIOReturnError`. -/
def registrationFails : Startup :=
  { sigintErr := false, sigtermErr := false, masterKr := KERN_SUCCESS, masterPort := 3,
    matchingDict := 4096, notifyPort := 8192, matchingKr := kIOReturnError,
    addedIter := [], events := [] }

/-- The value of the last `mouse count is now:` line of an output, if there is one. -/
def lastCount (out : List LogLine) : Option Int := (countLines out).getLast?

/-- The nodes on which `IOServiceAddInterestNotification` was called, in the order of the
calls. -/
def subscriptionCalls : List Call → List io_object_t
  | [] => []
  | .IOServiceAddInterestNotification t _ :: cs => t :: subscriptionCalls cs
  | _ :: cs => subscriptionCalls cs

/-- The counter, the allocated records and the registrations are the same in two states. -/
def sameRecords (w w' : World) : Prop :=
  w'.g_MouseCount = w.g_MouseCount ∧ w'.heap = w.heap ∧ w'.interests = w.interests

/-- A batch of one device with one node whose name cannot be read
(`IORegistryEntryGetName` returns `kIOReturnError`). -/
def unnamedNode : List Device :=
  [{ service := 40, iterKr := KERN_SUCCESS,
     nodes := [{ temp := 41, nameKr := kIOReturnError, name := [], mallocOk := true,
                 interestKr := KERN_SUCCESS }] }]

/-- A batch with one error of each kind that `DeviceAdded` reports: a device whose traversal
does not start, and a mouse whose interest registration is refused. -/
def twoReported : List Device :=
  { service := 50, iterKr := kIOReturnError, nodes := [] } :: refusedMouse

/-- The output of `w` tells the counter of `w`: either no count line was written and the
counter still has the value `c0`, or the last count line carries the value of the counter. -/
def Announced (c0 : Int) (w : World) : Prop :=
  (lastCount w.out = none ∧ w.g_MouseCount = c0) ∨ lastCount w.out = some w.g_MouseCount

/-! ## The comparison of names -/

theorem cstr_nil : cstr [] = [] := rfl

theorem cstr_cons (a : Nat) (as : List Nat) :
    cstr (a :: as) = if a = 0 then [] else a :: cstr as := by
  by_cases h : a = 0 <;> simp [cstr, List.takeWhile, h]

/-- The function `strcmp` returns zero exactly when the two buffers hold the same C string. -/
theorem strcmp_eq_zero_iff (a b : List Nat) : strcmp a b = 0 ↔ cstr a = cstr b := by
  induction a generalizing b with
  | nil =>
    cases b with
    | nil => simp [strcmp]
    | cons b bs =>
      by_cases hb : b = 0
      · simp [strcmp, cstr_cons, cstr_nil, hb]
      · have : ¬ ((b : Int) = 0) := by exact_mod_cast hb
        simp [strcmp, cstr_cons, cstr_nil, hb, this]
  | cons a as ih =>
    cases b with
    | nil =>
      by_cases ha : a = 0
      · simp [strcmp, cstr_cons, cstr_nil, ha]
      · have : ¬ ((a : Int) = 0) := by exact_mod_cast ha
        simp [strcmp, cstr_cons, cstr_nil, ha, this]
    | cons b bs =>
      by_cases hab : a = b
      · subst hab
        by_cases ha : a = 0
        · simp [strcmp, cstr_cons, ha]
        · simp [strcmp, cstr_cons, ha, ih]
      · have hne : ¬ ((a : Int) - (b : Int) = 0) := by
          intro h
          apply hab
          have : (a : Int) = (b : Int) := by linarith
          exact_mod_cast this
        by_cases ha : a = 0
        · have hb : ¬ b = 0 := fun h => hab (by rw [ha, h])
          have hb2 : ¬ 0 = b := fun h => hb h.symm
          subst ha
          simp [strcmp, cstr_cons, hb, hb2]
        · by_cases hb : b = 0
          · simp [strcmp, cstr_cons, ha, hb, hab, hne]
          · simp [strcmp, cstr_cons, ha, hb, hab, hne]

/-- The test `0 == strcmp("IOHIDPointing", name)` of line 81 holds exactly when the C string
in `name` is `IOHIDPointing`. -/
theorem name_test_iff (name : List Nat) :
    0 = strcmp IOHIDPointing name ↔ cstr name = IOHIDPointing := by
  have h : cstr IOHIDPointing = IOHIDPointing := by decide
  rw [eq_comm, strcmp_eq_zero_iff, h, eq_comm]

/-! ## The five ways through the body of the inner loop -/

theorem nodeBody_unreadable (n : Node) (w : World) (h : n.nameKr ≠ KERN_SUCCESS) :
    nodeBody n w = w.call (.IORegistryEntryGetName n.temp) := by
  simp [nodeBody, Ne.symm h]

theorem nodeBody_other (n : Node) (w : World) (h : n.nameKr = KERN_SUCCESS)
    (hn : cstr n.name ≠ IOHIDPointing) :
    nodeBody n w = (w.call (.IORegistryEntryGetName n.temp)).call (.IOObjectRelease n.temp) := by
  simp [nodeBody, h, name_test_iff, hn]

theorem nodeBody_nomem (n : Node) (w : World) (h : n.nameKr = KERN_SUCCESS)
    (hn : cstr n.name = IOHIDPointing) (hm : n.mallocOk = false) :
    nodeBody n w = (w.call (.IORegistryEntryGetName n.temp)).call .malloc := by
  simp [nodeBody, h, name_test_iff, hn, hm]

theorem nodeBody_refused (n : Node) (w : World) (h : n.nameKr = KERN_SUCCESS)
    (hn : cstr n.name = IOHIDPointing) (hm : n.mallocOk = true)
    (hi : n.interestKr ≠ KERN_SUCCESS) :
    nodeBody n w =
      { w with
        heap := (w.nextPtr, ⟨none⟩) :: w.heap
        nextPtr := w.nextPtr + 1
        out := w.out ++ [.addInterestReturned n.interestKr]
        calls := w.calls ++ [.IORegistryEntryGetName n.temp, .malloc,
          .IOServiceAddInterestNotification n.temp w.nextPtr] } := by
  simp [nodeBody, h, name_test_iff, hn, hm, Ne.symm hi, World.call, World.printf]

theorem nodeBody_subscribed (n : Node) (w : World) (h : n.nameKr = KERN_SUCCESS)
    (hn : cstr n.name = IOHIDPointing) (hm : n.mallocOk = true)
    (hi : n.interestKr = KERN_SUCCESS) :
    nodeBody n w =
      { g_MouseCount := w.g_MouseCount + 1
        heap := (w.nextPtr, ⟨some w.nextObject⟩) :: w.heap.filter (fun r => r.1 ≠ w.nextPtr)
        interests := (w.nextObject, w.nextPtr) :: w.interests
        nextPtr := w.nextPtr + 1
        nextObject := w.nextObject + 1
        out := w.out ++ [.mouseCount (w.g_MouseCount + 1)]
        calls := w.calls ++ [.IORegistryEntryGetName n.temp, .malloc,
          .IOServiceAddInterestNotification n.temp w.nextPtr, .IOObjectRelease n.temp] } := by
  simp [nodeBody, h, name_test_iff, hn, hm, hi, World.call, World.printf]

theorem subscribed_iff (n : Node) :
    n.subscribed = true ↔ n.nameKr = KERN_SUCCESS ∧ cstr n.name = IOHIDPointing ∧
      n.mallocOk = true ∧ n.interestKr = KERN_SUCCESS := by
  simp [Node.subscribed, and_assoc]

/-! ## Association lists -/

theorem lookup_filter_ne {β : Type} (l : List (Nat × β)) (k p : Nat) (h : k ≠ p) :
    (l.filter (fun r => r.1 ≠ p)).lookup k = l.lookup k := by
  induction l with
  | nil => rfl
  | cons x xs ih =>
    obtain ⟨a, b⟩ := x
    by_cases hap : a = p
    · have hka : (k == a) = false := by simp [hap, h]
      rw [List.filter_cons_of_neg (by simp [hap]), ih]
      simp [List.lookup, hka]
    · rw [List.filter_cons_of_pos (by simp [hap])]
      by_cases hka : k = a
      · simp [List.lookup, hka]
      · have hka2 : (k == a) = false := by simp [hka]
        simp only [List.lookup, hka2, ih]

theorem lookup_some_mem {β : Type} (l : List (Nat × β)) (k : Nat) (v : β)
    (h : l.lookup k = some v) : (k, v) ∈ l := by
  induction l with
  | nil => simp [List.lookup] at h
  | cons x xs ih =>
    obtain ⟨a, b⟩ := x
    by_cases hka : k = a
    · subst hka
      simp [List.lookup] at h
      simp [h]
    · have hka2 : (k == a) = false := by simp [hka]
      simp [List.lookup, hka2] at h
      exact List.mem_cons_of_mem _ (ih h)

theorem length_filter_fst_ne (l : List (Nat × Nat)) (o r : Nat)
    (hnd : (l.map Prod.fst).Nodup) (hmem : (o, r) ∈ l) :
    (l.filter (fun i => i.1 ≠ o)).length + 1 = l.length := by
  induction l with
  | nil => simp at hmem
  | cons x xs ih =>
    obtain ⟨a, b⟩ := x
    simp only [List.map_cons, List.nodup_cons] at hnd
    by_cases hao : a = o
    · subst hao
      have hall : xs.filter (fun i => i.1 ≠ a) = xs := by
        apply List.filter_eq_self.mpr
        intro i hi
        have : i.1 ≠ a := fun e => hnd.1 (e ▸ List.mem_map_of_mem Prod.fst hi)
        simpa using this
      rw [List.filter_cons_of_neg (by simp), hall]
      rfl
    · have hin : (o, r) ∈ xs := by
        rcases List.mem_cons.mp hmem with h | h
        · exact absurd (congrArg Prod.fst h).symm hao
        · exact h
      have := ih hnd.2 hin
      rw [List.filter_cons_of_pos (by simp [hao]), List.length_cons, List.length_cons, this]

/-! ## The coherence of heap, registrations and counter -/

theorem coherent_start : Coherent World.start :=
  { count := rfl, nodup := List.nodup_nil, stored := by simp [World.start],
    written := by simp [World.start],
    objects := by simp [World.start], blocks := by simp [World.start] }

theorem coherent_call (w : World) (c : Call) (h : Coherent w) : Coherent (w.call c) :=
  { count := h.count, nodup := h.nodup, stored := h.stored, written := h.written,
    objects := h.objects, blocks := h.blocks }

theorem coherent_printf (w : World) (l : LogLine) (h : Coherent w) : Coherent (w.printf l) :=
  { count := h.count, nodup := h.nodup, stored := h.stored, written := h.written,
    objects := h.objects, blocks := h.blocks }

/-- The record of a registration lies below the next address `malloc` hands out. -/
theorem Coherent.refCon_lt {w : World} (h : Coherent w) {i : io_object_t × Ptr}
    (hi : i ∈ w.interests) : i.2 < w.nextPtr :=
  h.blocks _ (lookup_some_mem _ _ _ (h.stored i hi))

theorem coherent_nodeBody (n : Node) (w : World) (h : Coherent w) : Coherent (nodeBody n w) := by
  by_cases hk : n.nameKr = KERN_SUCCESS
  swap
  · rw [nodeBody_unreadable n w hk]; exact coherent_call _ _ h
  by_cases hn : cstr n.name = IOHIDPointing
  swap
  · rw [nodeBody_other n w hk hn]; exact coherent_call _ _ (coherent_call _ _ h)
  by_cases hm : n.mallocOk = true
  swap
  · rw [nodeBody_nomem n w hk hn (by simpa using hm)]
    exact coherent_call _ _ (coherent_call _ _ h)
  by_cases hi : n.interestKr = KERN_SUCCESS
  · rw [nodeBody_subscribed n w hk hn hm hi]
    refine ⟨?_, ?_, ?_, ?_, ?_, ?_⟩
    · simp [h.count]
    · simp only [List.map_cons, List.nodup_cons]
      refine ⟨?_, h.nodup⟩
      intro hmem
      obtain ⟨i, hi1, hi2⟩ := List.mem_map.mp hmem
      exact absurd hi2 (Nat.ne_of_lt (h.objects i hi1))
    · intro i hi1
      rcases List.mem_cons.mp hi1 with e | hi2
      · subst e; simp [List.lookup]
      · have hne : i.2 ≠ w.nextPtr := Nat.ne_of_lt (h.refCon_lt hi2)
        have hb : (i.2 == w.nextPtr) = false := by simp [hne]
        simp only [List.lookup, hb]
        rw [lookup_filter_ne _ _ _ hne]
        exact h.stored i hi2
    · intro r hr m hm2
      rcases List.mem_cons.mp hr with e | hr2
      · subst e
        simp only [Option.some.injEq] at hm2
        subst hm2
        exact List.mem_cons_self _ _
      · exact List.mem_cons_of_mem _ (h.written r (List.mem_filter.mp hr2).1 m hm2)
    · intro i hi1
      rcases List.mem_cons.mp hi1 with e | hi2
      · subst e; exact Nat.lt_succ_self _
      · exact Nat.lt_succ_of_lt (h.objects i hi2)
    · intro r hr
      rcases List.mem_cons.mp hr with e | hr2
      · subst e; exact Nat.lt_succ_self _
      · exact Nat.lt_succ_of_lt (h.blocks r (List.mem_filter.mp hr2).1)
  · rw [nodeBody_refused n w hk hn hm hi]
    refine ⟨h.count, h.nodup, ?_, ?_, h.objects, ?_⟩
    · intro i hi2
      have hne : i.2 ≠ w.nextPtr := Nat.ne_of_lt (h.refCon_lt hi2)
      have hb : (i.2 == w.nextPtr) = false := by simp [hne]
      simp only [List.lookup, hb]
      exact h.stored i hi2
    · intro r hr m hm2
      rcases List.mem_cons.mp hr with e | hr2
      · subst e
        simp at hm2
      · exact h.written r hr2 m hm2
    · intro r hr
      rcases List.mem_cons.mp hr with e | hr2
      · subst e; exact Nat.lt_succ_self _
      · exact Nat.lt_succ_of_lt (h.blocks r hr2)

theorem coherent_nodeLoop (ns : List Node) (w : World) (h : Coherent w) :
    Coherent (nodeLoop ns w) := by
  induction ns generalizing w with
  | nil => exact h
  | cons n ns ih => exact ih _ (coherent_nodeBody n w h)

theorem coherent_deviceBody (d : Device) (w : World) (h : Coherent w) :
    Coherent (deviceBody d w) := by
  unfold deviceBody
  by_cases hk : KERN_SUCCESS ≠ d.iterKr
  · rw [if_pos hk]
    exact coherent_printf _ _ (coherent_call _ _ h)
  · rw [if_neg hk]
    exact coherent_call _ _ (coherent_nodeLoop _ _ (coherent_call _ _ h))

theorem coherent_DeviceAdded (batch : List Device) (w : World) (h : Coherent w) :
    Coherent (DeviceAdded batch w) := by
  induction batch generalizing w with
  | nil => exact h
  | cons d ds ih => exact ih _ (coherent_deviceBody d w h)

/-- In a coherent state the records live are the records whose field was written. -/
theorem Coherent.live_of_written {w : World} (h : Coherent w) {r : Ptr} {n : io_object_t}
    (hn : w.notificationOf r = some n) : (n, r) ∈ w.interests := by
  unfold World.notificationOf at hn
  cases hl : w.heap.lookup r with
  | none => rw [hl] at hn; simp at hn
  | some d =>
    rw [hl] at hn
    exact h.written (r, d) (lookup_some_mem _ _ _ hl) n hn

theorem Coherent.written_of_live {w : World} (h : Coherent w) {i : io_object_t × Ptr}
    (hi : i ∈ w.interests) : w.notificationOf i.2 = some i.1 := by
  unfold World.notificationOf
  rw [h.stored i hi]

theorem nodup_fst_unique (l : List (Nat × Nat)) (o a b : Nat) (hnd : (l.map Prod.fst).Nodup)
    (ha : (o, a) ∈ l) (hb : (o, b) ∈ l) : a = b := by
  induction l with
  | nil => simp at ha
  | cons x xs ih =>
    simp only [List.map_cons, List.nodup_cons] at hnd
    rcases List.mem_cons.mp ha with e1 | h1 <;> rcases List.mem_cons.mp hb with e2 | h2
    · rw [← e1] at e2
      exact (congrArg Prod.snd e2).symm
    · subst e1
      exact absurd (List.mem_map_of_mem Prod.fst h2) hnd.1
    · subst e2
      exact absurd (List.mem_map_of_mem Prod.fst h1) hnd.1
    · exact ih hnd.2 h1 h2

/-! ## `DeviceNotification`, way by way -/

theorem DeviceNotification_ignored (refCon : Ptr) (service : io_object_t) (messageType : Nat)
    (messageArgument : Nat) (w : World) (h : messageType ≠ kIOMessageServiceIsTerminated) :
    DeviceNotification refCon service messageType messageArgument w = some w := by
  simp [DeviceNotification, Ne.symm h]

/-- The "service terminated" message on a `refCon` that is a record with a written field. -/
theorem DeviceNotification_terminated (refCon : Ptr) (service : io_object_t) (arg : Nat)
    (n : io_object_t) (w : World) (h : w.notificationOf refCon = some n) :
    DeviceNotification refCon service kIOMessageServiceIsTerminated arg w = some
      { g_MouseCount := decremented w.g_MouseCount
        heap := w.heap.filter (fun r => r.1 ≠ refCon)
        interests := w.interests.filter (fun i => i.1 ≠ n)
        nextPtr := w.nextPtr
        nextObject := w.nextObject
        out := w.out ++ [.mouseCount (decremented w.g_MouseCount)]
        calls := w.calls ++ [.IOObjectRelease n, .free refCon] } := by
  unfold World.notificationOf at h
  unfold DeviceNotification decremented
  by_cases hc : w.g_MouseCount = 0 <;>
    simp [hc, World.printf, World.call, World.notificationOf, h]

/-- The "service terminated" message on a `refCon` that is no record with a written field:
lines 50-51 have no defined behaviour. -/
theorem DeviceNotification_undefined (refCon : Ptr) (service : io_object_t) (arg : Nat)
    (w : World) (h : w.notificationOf refCon = none) :
    DeviceNotification refCon service kIOMessageServiceIsTerminated arg w = none := by
  unfold World.notificationOf at h
  unfold DeviceNotification
  by_cases hc : w.g_MouseCount = 0 <;>
    simp [hc, World.printf, World.call, World.notificationOf, h]

/-- A termination message delivered to a live record has a result and removes exactly that
registration: the state stays coherent and the counter goes down by one. -/
theorem coherent_DeviceNotification (refCon : Ptr) (service : io_object_t) (arg : Nat)
    (w : World) (h : Coherent w) (hl : refCon ∈ w.live) :
    ∃ w', DeviceNotification refCon service kIOMessageServiceIsTerminated arg w = some w' ∧
      Coherent w' ∧ w'.g_MouseCount = w.g_MouseCount - 1 := by
  obtain ⟨i, hi, hir⟩ := List.mem_map.mp hl
  obtain ⟨o, r⟩ := i
  simp only at hir
  subst hir
  have hs := h.stored _ hi
  simp only at hs
  have hnot : w.notificationOf r = some o := h.written_of_live hi
  have hlen := length_filter_fst_ne w.interests o r h.nodup hi
  have hpos : w.g_MouseCount ≠ 0 := by
    rw [h.count]
    have : 0 < w.interests.length := List.length_pos_of_mem hi
    omega
  have hdec : decremented w.g_MouseCount = w.g_MouseCount - 1 := by
    simp [decremented, hpos]
  refine ⟨_, DeviceNotification_terminated r service arg o w hnot, ⟨?_, ?_, ?_, ?_, ?_, ?_⟩, hdec⟩
  · simp only
    rw [hdec, h.count]
    have hlen2 : ((w.interests.filter (fun i => i.1 ≠ o)).length : Int) + 1 =
        (w.interests.length : Int) := by exact_mod_cast hlen
    linarith
  · exact h.nodup.sublist ((List.filter_sublist _).map Prod.fst)
  · intro i hi2
    obtain ⟨hi3, hi4⟩ := List.mem_filter.mp hi2
    have hio : i.1 ≠ o := by simpa using hi4
    have hne : i.2 ≠ r := by
      intro e
      have h1 := h.stored i hi3
      rw [e, hs] at h1
      simp only [Option.some.injEq, NotificationData.mk.injEq] at h1
      exact hio h1.symm
    simp only
    rw [lookup_filter_ne _ _ _ hne]
    exact h.stored i hi3
  · intro x hx m hm
    obtain ⟨hx1, hx2⟩ := List.mem_filter.mp hx
    have hxr : x.1 ≠ r := by simpa using hx2
    have hmem := h.written x hx1 m hm
    refine List.mem_filter.mpr ⟨hmem, ?_⟩
    have hmo : m ≠ o := by
      intro e
      rw [e] at hmem
      exact hxr (nodup_fst_unique w.interests o x.1 r h.nodup hmem hi)
    simpa using hmo
  · intro i hi2
    exact h.objects i (List.mem_filter.mp hi2).1
  · intro x hx
    exact h.blocks x (List.mem_filter.mp hx).1

/-! ## The counter over a batch -/

theorem nodeBody_count (n : Node) (w : World) :
    (nodeBody n w).g_MouseCount = w.g_MouseCount + (if n.subscribed = true then 1 else 0) := by
  by_cases hk : n.nameKr = KERN_SUCCESS
  swap
  · rw [nodeBody_unreadable n w hk]; simp [subscribed_iff, hk, World.call]
  by_cases hn : cstr n.name = IOHIDPointing
  swap
  · rw [nodeBody_other n w hk hn]; simp [subscribed_iff, hn, World.call]
  by_cases hm : n.mallocOk = true
  swap
  · rw [nodeBody_nomem n w hk hn (by simpa using hm)]; simp [subscribed_iff, hm, World.call]
  by_cases hi : n.interestKr = KERN_SUCCESS
  · rw [nodeBody_subscribed n w hk hn hm hi]; simp [subscribed_iff, hk, hn, hm, hi]
  · rw [nodeBody_refused n w hk hn hm hi]; simp [subscribed_iff, hi]

theorem nodeLoop_count (ns : List Node) (w : World) :
    (nodeLoop ns w).g_MouseCount = w.g_MouseCount + (ns.countP Node.subscribed : Nat) := by
  induction ns generalizing w with
  | nil => simp [nodeLoop]
  | cons n ns ih =>
    rw [nodeLoop, ih, nodeBody_count, List.countP_cons]
    by_cases h : n.subscribed = true
    · simp [h]; ring
    · simp [h]

theorem deviceBody_count (d : Device) (w : World) :
    (deviceBody d w).g_MouseCount = w.g_MouseCount + (d.subscribed : Nat) := by
  unfold deviceBody Device.subscribed
  by_cases hk : d.iterKr = KERN_SUCCESS
  · rw [if_neg (by simp [hk]), if_pos hk]
    simp [World.call, nodeLoop_count]
  · rw [if_pos (Ne.symm hk), if_neg hk]
    simp [World.call, World.printf]

theorem DeviceAdded_count (batch : List Device) (w : World) :
    (DeviceAdded batch w).g_MouseCount = w.g_MouseCount + (subscribedIn batch : Nat) := by
  induction batch generalizing w with
  | nil => simp [DeviceAdded, subscribedIn]
  | cons d ds ih =>
    rw [DeviceAdded, ih, deviceBody_count]
    simp only [subscribedIn, List.map_cons, List.sum_cons]
    push_cast
    ring

/-! ## Runs of the event loop -/

theorem runLoop_append (es fs : List Event) (w : World) :
    runLoop (es ++ fs) w = (runLoop es w).bind (runLoop fs) := by
  induction es generalizing w with
  | nil => rfl
  | cons e es ih =>
    simp only [List.cons_append, runLoop]
    cases dispatch e w with
    | none => rfl
    | some w' => exact ih w'

theorem wellDelivered_take (es : List Event) (w : World) (k : Nat)
    (h : wellDelivered es w = true) : wellDelivered (es.take k) w = true := by
  induction es generalizing w k with
  | nil => simp [wellDelivered]
  | cons e es ih =>
    cases k with
    | zero => simp [wellDelivered]
    | succ k =>
      cases e with
      | arrival iter1 =>
        simp only [wellDelivered] at h
        simp only [List.take_succ_cons, wellDelivered]
        exact ih _ _ h
      | interest r s m a =>
        simp only [wellDelivered, Bool.and_eq_true] at h
        simp only [List.take_succ_cons, wellDelivered, Bool.and_eq_true]
        refine ⟨h.1, ?_⟩
        cases hd : DeviceNotification r s m a w with
        | none => rfl
        | some w' =>
          have h2 := h.2
          rw [hd] at h2
          exact ih _ _ h2

/-- Over a sequence in which every termination message goes to a live record every callback
has a result, the state stays coherent and the counter is the difference of the records
created and the termination callbacks. -/
theorem runLoop_coherent (es : List Event) (w : World) (h : Coherent w)
    (hd : wellDelivered es w = true) :
    ∃ w', runLoop es w = some w' ∧ Coherent w' ∧
      w'.g_MouseCount = w.g_MouseCount + (createdBy es : Int) - (terminatedBy es : Int) := by
  induction es generalizing w with
  | nil => exact ⟨w, rfl, h, by simp [createdBy, terminatedBy]⟩
  | cons e es ih =>
    cases e with
    | arrival iter1 =>
      simp only [wellDelivered] at hd
      obtain ⟨w', h0, h1, h2⟩ := ih _ (coherent_DeviceAdded iter1 w h) hd
      refine ⟨w', by simpa only [runLoop, dispatch] using h0, h1, ?_⟩
      simp only [createdBy, terminatedBy]
      rw [h2, DeviceAdded_count]
      push_cast
      ring
    | interest r s m a =>
      simp only [wellDelivered, Bool.and_eq_true, Bool.or_eq_true, decide_eq_true_eq] at hd
      by_cases hm : m = kIOMessageServiceIsTerminated
      · subst hm
        have hl : r ∈ w.live := by
          rcases hd.1 with h0 | h0
          · exact absurd rfl h0
          · exact h0
        obtain ⟨v, hv, hc, hcount⟩ := coherent_DeviceNotification r s a w h hl
        have hd2 := hd.2
        rw [hv] at hd2
        obtain ⟨w', h0, h1, h2⟩ := ih _ hc hd2
        refine ⟨w', by simpa only [runLoop, dispatch, hv] using h0, h1, ?_⟩
        simp only [createdBy, terminatedBy]
        rw [h2, hcount]
        simp
        ring
      · have hw := DeviceNotification_ignored r s m a w hm
        have hd2 := hd.2
        rw [hw] at hd2
        obtain ⟨w', h0, h1, h2⟩ := ih _ h hd2
        refine ⟨w', by simpa only [runLoop, dispatch, hw] using h0, h1, ?_⟩
        simp only [createdBy, terminatedBy]
        rw [h2]
        simp [hm]

/-- From a coherent state, the sequences of events on which every callback has a result are
the sequences in which every termination message goes to a live record. -/
theorem runLoop_delivered (es : List Event) (w : World) (h : Coherent w)
    (hs : (runLoop es w).isSome = true) : wellDelivered es w = true := by
  induction es generalizing w with
  | nil => rfl
  | cons e es ih =>
    cases e with
    | arrival iter1 =>
      simp only [runLoop, dispatch] at hs
      simp only [wellDelivered]
      exact ih _ (coherent_DeviceAdded iter1 w h) hs
    | interest r s m a =>
      simp only [runLoop, dispatch] at hs
      simp only [wellDelivered, Bool.and_eq_true, Bool.or_eq_true, decide_eq_true_eq]
      by_cases hm : m = kIOMessageServiceIsTerminated
      · subst hm
        cases hn : w.notificationOf r with
        | none =>
          rw [DeviceNotification_undefined r s a w hn] at hs
          simp at hs
        | some n =>
          have hl : r ∈ w.live := List.mem_map.mpr ⟨(n, r), h.live_of_written hn, rfl⟩
          obtain ⟨v, hv, hc, _⟩ := coherent_DeviceNotification r s a w h hl
          rw [hv] at hs ⊢
          exact ⟨Or.inr hl, ih _ hc hs⟩
      · have hw := DeviceNotification_ignored r s m a w hm
        rw [hw] at hs ⊢
        exact ⟨Or.inl hm, ih _ h hs⟩

/-- Callbacks the program does not receive: a termination message whose `refCon` is no record,
and a second termination message for a record already freed.  Lines 50-51 have no defined
behaviour on them and the run has no result. -/
theorem stray_callbacks_undefined :
    runLoop strayThenPlug World.start = none ∧ runLoop deliveredTwice World.start = none := by
  decide

/-! ## The properties of the specification -/

/-- C1: over every sequence of arrival batches and interest messages from the start state in
which each "service terminated" message is delivered to a record that is live at that moment
(hence at most once to a record), every callback has a result and the value of
`g_MouseCount` after each event (after the first `k` events, for every `k`) is the number of
live Subscription Records, and that number is the number of records whose interest
registration succeeded less the number of termination callbacks that have fired. -/
theorem C1_count_is_live_records (es : List Event) (k : Nat)
    (h : wellDelivered es World.start = true) :
    ∃ w, runLoop (es.take k) World.start = some w ∧
      w.g_MouseCount = (w.live.length : Int) ∧
      (w.live.length : Int) =
        (createdBy (es.take k) : Int) - (terminatedBy (es.take k) : Int) := by
  obtain ⟨w, hw, hc, hcount⟩ := runLoop_coherent (es.take k) World.start coherent_start
    (wellDelivered_take es World.start k h)
  have h0 : World.start.g_MouseCount = 0 := rfl
  rw [h0, hc.count] at hcount
  refine ⟨w, hw, ?_, ?_⟩
  · rw [hc.count, World.live, List.length_map]
  · rw [World.live, List.length_map, hcount]; ring

/-- C1, the scenario of the specification: nothing is plugged in at startup, a mouse arrives,
it is unplugged, two mice arrive in one batch, one of them is unplugged.  The counter after
0, 1, .., 5 events is 0, 0, 1, 0, 2, 1, and so is the number of live records. -/
theorem C1_count_is_live_records_witness :
    wellDelivered plugScenario World.start = true ∧
    (List.range 6).map
      (fun k => (runLoop (plugScenario.take k) World.start).map World.g_MouseCount)
      = [some 0, some 0, some 1, some 0, some 2, some 1] ∧
    (List.range 6).map
      (fun k => (runLoop (plugScenario.take k) World.start).map (fun w => w.live.length))
      = [some 0, some 0, some 1, some 0, some 2, some 1] ∧
    (∃ w, runLoop (plugScenario.take 4) World.start = some w ∧
      w.g_MouseCount = (w.live.length : Int) ∧
      (w.live.length : Int) =
        (createdBy (plugScenario.take 4) : Int) - (terminatedBy (plugScenario.take 4) : Int)) :=
  ⟨by decide, by decide, by decide, C1_count_is_live_records plugScenario 4 (by decide)⟩

/-- C2: for every finite sequence of arrival and termination events that the program
processes from the start state (every callback has a result, that is, every
`DeviceNotification` is called with a `refCon` that is a record, as I/O Kit calls it), the
counter afterwards is `max(0, C - T)`, `C` the number of Subscription Records created and `T`
the number of termination callbacks that have fired; on such a sequence `T ≤ C`. -/
theorem C2_trace_formula (es : List Event)
    (h : (runLoop es World.start).isSome = true) :
    ∃ w, runLoop es World.start = some w ∧
      w.g_MouseCount = max 0 ((createdBy es : Int) - (terminatedBy es : Int)) ∧
      terminatedBy es ≤ createdBy es := by
  obtain ⟨w, hw, hc, hcount⟩ := runLoop_coherent es World.start coherent_start
    (runLoop_delivered es World.start coherent_start h)
  have h0 : World.start.g_MouseCount = 0 := rfl
  have hnn : 0 ≤ w.g_MouseCount := by
    rw [hc.count]; exact Int.natCast_nonneg _
  rw [h0] at hcount
  have hle : (0 : Int) ≤ (createdBy es : Int) - (terminatedBy es : Int) := by
    rw [hcount] at hnn; linarith
  refine ⟨w, hw, ?_, ?_⟩
  · rw [hcount, max_eq_right hle]; ring
  · have : (terminatedBy es : Int) ≤ (createdBy es : Int) := by linarith
    exact_mod_cast this

/-- C2 on the scenario of the specification: three records created, two termination
callbacks, counter 1. -/
theorem C2_trace_formula_witness :
    (runLoop plugScenario World.start).isSome = true ∧
    createdBy plugScenario = 3 ∧ terminatedBy plugScenario = 2 ∧
    (runLoop plugScenario World.start).map World.g_MouseCount = some 1 ∧
    (∃ w, runLoop plugScenario World.start = some w ∧
      w.g_MouseCount =
        max 0 ((createdBy plugScenario : Int) - (terminatedBy plugScenario : Int)) ∧
      terminatedBy plugScenario ≤ createdBy plugScenario) :=
  ⟨by decide, by decide, by decide, by decide, C2_trace_formula plugScenario (by decide)⟩

/-- C7: for every message kind other than "service terminated" and every `refCon`,
`DeviceNotification` has a result and it is the state it was given: the counter, the heap (no
record is freed), the registrations and the calls (no handle is released) and the output
(nothing is logged) are all as before. -/
theorem C7_other_messages_ignored (refCon : Ptr) (service : io_object_t) (messageType : Nat)
    (messageArgument : Nat) (w : World) (h : messageType ≠ kIOMessageServiceIsTerminated) :
    DeviceNotification refCon service messageType messageArgument w = some w :=
  DeviceNotification_ignored refCon service messageType messageArgument w h

/-- C7 on a live record: a "requesting close" message to the record of a plugged-in mouse
changes nothing. -/
theorem C7_other_messages_ignored_witness :
    kIOMessageServiceIsRequestingClose ≠ kIOMessageServiceIsTerminated ∧
    (DeviceAdded [usbMouse 10] World.start).live = [1] ∧
    DeviceNotification 1 12 kIOMessageServiceIsRequestingClose 0
      (DeviceAdded [usbMouse 10] World.start) = some (DeviceAdded [usbMouse 10] World.start) :=
  ⟨by decide, by decide,
    C7_other_messages_ignored 1 12 kIOMessageServiceIsRequestingClose 0
      (DeviceAdded [usbMouse 10] World.start) (by decide)⟩

/-! ## The calls of a batch -/

theorem devicesVisited_append (l m : List Call) :
    devicesVisited (l ++ m) = devicesVisited l ++ devicesVisited m := by
  induction l with
  | nil => rfl
  | cons c cs ih => cases c <;> simp [devicesVisited, ih]

theorem nodesVisited_append (l m : List Call) :
    nodesVisited (l ++ m) = nodesVisited l ++ nodesVisited m := by
  induction l with
  | nil => rfl
  | cons c cs ih => cases c <;> simp [nodesVisited, ih]

/-- The calls of the body of the inner loop: the read of the name first, then calls that are
neither a traversal start nor a read of a name. -/
theorem nodeBody_calls (n : Node) (w : World) :
    ∃ cs, (nodeBody n w).calls = w.calls ++ Call.IORegistryEntryGetName n.temp :: cs ∧
      devicesVisited cs = [] ∧ nodesVisited cs = [] := by
  by_cases hk : n.nameKr = KERN_SUCCESS
  swap
  · exact ⟨[], by rw [nodeBody_unreadable n w hk]; rfl, rfl, rfl⟩
  by_cases hn : cstr n.name = IOHIDPointing
  swap
  · exact ⟨[.IOObjectRelease n.temp], by rw [nodeBody_other n w hk hn]; simp [World.call],
      rfl, rfl⟩
  by_cases hm : n.mallocOk = true
  swap
  · exact ⟨[.malloc], by rw [nodeBody_nomem n w hk hn (by simpa using hm)]; simp [World.call],
      rfl, rfl⟩
  by_cases hi : n.interestKr = KERN_SUCCESS
  · exact ⟨[.malloc, .IOServiceAddInterestNotification n.temp w.nextPtr,
      .IOObjectRelease n.temp], by rw [nodeBody_subscribed n w hk hn hm hi], rfl, rfl⟩
  · exact ⟨[.malloc, .IOServiceAddInterestNotification n.temp w.nextPtr],
      by rw [nodeBody_refused n w hk hn hm hi], rfl, rfl⟩

theorem nodeLoop_visited (ns : List Node) (w : World) :
    devicesVisited (nodeLoop ns w).calls = devicesVisited w.calls ∧
    nodesVisited (nodeLoop ns w).calls = nodesVisited w.calls ++ ns.map Node.temp := by
  induction ns generalizing w with
  | nil => simp [nodeLoop]
  | cons n ns ih =>
    obtain ⟨cs, hcs, hd, hv⟩ := nodeBody_calls n w
    obtain ⟨h1, h2⟩ := ih (nodeBody n w)
    rw [nodeLoop, h1, h2, hcs]
    constructor
    · rw [devicesVisited_append]; simp [devicesVisited, hd]
    · rw [nodesVisited_append]; simp [nodesVisited, hv]

theorem deviceBody_visited (d : Device) (w : World) :
    devicesVisited (deviceBody d w).calls = devicesVisited w.calls ++ [d.service] ∧
    nodesVisited (deviceBody d w).calls =
      nodesVisited w.calls ++ (if d.iterKr = KERN_SUCCESS then d.nodes else []).map Node.temp := by
  unfold deviceBody
  by_cases hk : d.iterKr = KERN_SUCCESS
  · rw [if_neg (by simp [hk]), if_pos hk]
    obtain ⟨h1, h2⟩ := nodeLoop_visited d.nodes (w.call (.IORegistryEntryCreateIterator d.service))
    constructor
    · simp only [World.call] at h1 ⊢
      rw [devicesVisited_append, h1, devicesVisited_append]
      simp [devicesVisited]
    · simp only [World.call] at h2 ⊢
      rw [nodesVisited_append, h2, nodesVisited_append]
      simp [nodesVisited]
  · rw [if_pos (Ne.symm hk), if_neg hk]
    simp [World.call, World.printf, devicesVisited_append, nodesVisited_append,
      devicesVisited, nodesVisited]

theorem DeviceAdded_visited (batch : List Device) (w : World) :
    devicesVisited (DeviceAdded batch w).calls =
      devicesVisited w.calls ++ batch.map Device.service ∧
    nodesVisited (DeviceAdded batch w).calls =
      nodesVisited w.calls ++ (deliveredNodes batch).map Node.temp := by
  induction batch generalizing w with
  | nil => simp [DeviceAdded, deliveredNodes]
  | cons d ds ih =>
    obtain ⟨h1, h2⟩ := ih (deviceBody d w)
    obtain ⟨h3, h4⟩ := deviceBody_visited d w
    rw [DeviceAdded, h1, h2, h3, h4]
    simp [deliveredNodes]

theorem nodeLoop_append (ns ms : List Node) (w : World) :
    nodeLoop (ns ++ ms) w = nodeLoop ms (nodeLoop ns w) := by
  induction ns generalizing w with
  | nil => rfl
  | cons n ns ih => exact ih (nodeBody n w)

theorem DeviceAdded_append (b1 b2 : List Device) (w : World) :
    DeviceAdded (b1 ++ b2) w = DeviceAdded b2 (DeviceAdded b1 w) := by
  induction b1 generalizing w with
  | nil => rfl
  | cons d ds ih => exact ih (deviceBody d w)

theorem nodeLoop_calls (ns : List Node) (w : World) :
    ∃ cs, (nodeLoop ns w).calls = w.calls ++ cs := by
  induction ns generalizing w with
  | nil => exact ⟨[], by simp [nodeLoop]⟩
  | cons n ns ih =>
    obtain ⟨cs, hcs, _, _⟩ := nodeBody_calls n w
    obtain ⟨ds, hds⟩ := ih (nodeBody n w)
    exact ⟨_ :: cs ++ ds, by rw [nodeLoop, hds, hcs, List.append_assoc]⟩

theorem deviceBody_calls (d : Device) (w : World) :
    ∃ cs, (deviceBody d w).calls = w.calls ++ cs := by
  unfold deviceBody
  by_cases hk : d.iterKr = KERN_SUCCESS
  · rw [if_neg (by simp [hk])]
    obtain ⟨cs, hcs⟩ := nodeLoop_calls d.nodes (w.call (.IORegistryEntryCreateIterator d.service))
    refine ⟨.IORegistryEntryCreateIterator d.service :: cs ++ [.IOObjectRelease d.service], ?_⟩
    simp only [World.call] at hcs ⊢
    rw [hcs]
    simp
  · rw [if_pos (Ne.symm hk)]
    exact ⟨[.IORegistryEntryCreateIterator d.service], rfl⟩

theorem DeviceAdded_calls (batch : List Device) (w : World) :
    ∃ cs, (DeviceAdded batch w).calls = w.calls ++ cs := by
  induction batch generalizing w with
  | nil => exact ⟨[], by simp [DeviceAdded]⟩
  | cons d ds ih =>
    obtain ⟨cs, hcs⟩ := deviceBody_calls d w
    obtain ⟨es, hes⟩ := ih (deviceBody d w)
    exact ⟨cs ++ es, by rw [DeviceAdded, hes, hcs, List.append_assoc]⟩

theorem newCalls_of_append (w w' : World) (cs : List Call) (h : w'.calls = w.calls ++ cs) :
    newCalls w w' = cs := by
  unfold newCalls
  rw [h, List.drop_left]

/-- C3: for every arrival batch and every state, `DeviceAdded` starts the traversal of every
device of the batch, reads the name of every node the traversals deliver, and raises
`g_MouseCount` by exactly the number of nodes whose device's traversal started, whose name was
read and is `IOHIDPointing`, and whose record allocation and interest registration succeeded.
Whatever happens in the first `k` devices (or the first `k` nodes of a device), the rest of
the batch is processed as it would be on its own from the state reached. -/
theorem C3_batch_accounting (batch : List Device) (w : World) :
    (DeviceAdded batch w).g_MouseCount = w.g_MouseCount + (subscribedIn batch : Int) ∧
    devicesVisited (newCalls w (DeviceAdded batch w)) = batch.map Device.service ∧
    nodesVisited (newCalls w (DeviceAdded batch w)) = (deliveredNodes batch).map Node.temp ∧
    (∀ k, DeviceAdded batch w = DeviceAdded (batch.drop k) (DeviceAdded (batch.take k) w)) ∧
    (∀ ns k, nodeLoop ns w = nodeLoop (ns.drop k) (nodeLoop (ns.take k) w)) := by
  obtain ⟨cs, hcs⟩ := DeviceAdded_calls batch w
  obtain ⟨h1, h2⟩ := DeviceAdded_visited batch w
  rw [hcs, devicesVisited_append] at h1
  rw [hcs, nodesVisited_append] at h2
  rw [newCalls_of_append _ _ cs hcs]
  refine ⟨DeviceAdded_count batch w, List.append_cancel_left h1, List.append_cancel_left h2,
    ?_, ?_⟩
  · intro k
    rw [← DeviceAdded_append, List.take_append_drop]
  · intro ns k
    rw [← nodeLoop_append, List.take_append_drop]

/-! ## Nodes that are not pointing devices -/

theorem nodeBody_frame (n : Node) (w : World)
    (h : n.nameKr = KERN_SUCCESS → cstr n.name ≠ IOHIDPointing) :
    sameRecords w (nodeBody n w) := by
  by_cases hk : n.nameKr = KERN_SUCCESS
  · rw [nodeBody_other n w hk (h hk)]; exact ⟨rfl, rfl, rfl⟩
  · rw [nodeBody_unreadable n w hk]; exact ⟨rfl, rfl, rfl⟩

theorem sameRecords_trans {u v w : World} (h1 : sameRecords u v) (h2 : sameRecords v w) :
    sameRecords u w :=
  ⟨h2.1.trans h1.1, h2.2.1.trans h1.2.1, h2.2.2.trans h1.2.2⟩

theorem nodeLoop_frame (ns : List Node) (w : World)
    (h : ∀ m ∈ ns, m.nameKr = KERN_SUCCESS → cstr m.name ≠ IOHIDPointing) :
    sameRecords w (nodeLoop ns w) := by
  induction ns generalizing w with
  | nil => exact ⟨rfl, rfl, rfl⟩
  | cons n ns ih =>
    exact sameRecords_trans (nodeBody_frame n w (h n (List.mem_cons_self _ _)))
      (ih _ (fun m hm => h m (List.mem_cons_of_mem _ hm)))

theorem deviceBody_frame (d : Device) (w : World)
    (h : ∀ m ∈ d.nodes, m.nameKr = KERN_SUCCESS → cstr m.name ≠ IOHIDPointing) :
    sameRecords w (deviceBody d w) := by
  unfold deviceBody
  by_cases hk : d.iterKr = KERN_SUCCESS
  · rw [if_neg (by simp [hk])]
    exact nodeLoop_frame d.nodes (w.call (.IORegistryEntryCreateIterator d.service)) h
  · rw [if_pos (Ne.symm hk)]
    exact ⟨rfl, rfl, rfl⟩

theorem DeviceAdded_frame (batch : List Device) (w : World)
    (h : ∀ d ∈ batch, ∀ m ∈ d.nodes, m.nameKr = KERN_SUCCESS → cstr m.name ≠ IOHIDPointing) :
    sameRecords w (DeviceAdded batch w) := by
  induction batch generalizing w with
  | nil => exact ⟨rfl, rfl, rfl⟩
  | cons d ds ih =>
    exact sameRecords_trans (deviceBody_frame d w (h d (List.mem_cons_self _ _)))
      (ih _ (fun e he => h e (List.mem_cons_of_mem _ he)))

/-- The calls of the body of the inner loop, way by way. -/
theorem nodeBody_newCalls (n : Node) (w : World) :
    newCalls w (nodeBody n w) =
      if n.nameKr ≠ KERN_SUCCESS then [.IORegistryEntryGetName n.temp]
      else if cstr n.name ≠ IOHIDPointing then
        [.IORegistryEntryGetName n.temp, .IOObjectRelease n.temp]
      else if n.mallocOk = false then [.IORegistryEntryGetName n.temp, .malloc]
      else if n.interestKr ≠ KERN_SUCCESS then
        [.IORegistryEntryGetName n.temp, .malloc,
          .IOServiceAddInterestNotification n.temp w.nextPtr]
      else
        [.IORegistryEntryGetName n.temp, .malloc,
          .IOServiceAddInterestNotification n.temp w.nextPtr, .IOObjectRelease n.temp] := by
  by_cases hk : n.nameKr = KERN_SUCCESS
  swap
  · rw [if_pos hk]
    exact newCalls_of_append _ _ _ (by rw [nodeBody_unreadable n w hk]; rfl)
  rw [if_neg (by simp [hk])]
  by_cases hn : cstr n.name = IOHIDPointing
  swap
  · rw [if_pos hn]
    exact newCalls_of_append _ _ _ (by rw [nodeBody_other n w hk hn]; simp [World.call])
  rw [if_neg (by simp [hn])]
  by_cases hm : n.mallocOk = true
  swap
  · have hm2 : n.mallocOk = false := by simpa using hm
    rw [if_pos hm2]
    exact newCalls_of_append _ _ _ (by rw [nodeBody_nomem n w hk hn hm2]; simp [World.call])
  rw [if_neg (by simp [hm])]
  by_cases hi : n.interestKr = KERN_SUCCESS
  · rw [if_neg (by simp [hi])]
    exact newCalls_of_append _ _ _ (by rw [nodeBody_subscribed n w hk hn hm hi])
  · rw [if_pos hi]
    exact newCalls_of_append _ _ _ (by rw [nodeBody_refused n w hk hn hm hi])

/-- C4: for every node whose name is readable, `DeviceAdded` enters the subscription (allocates
a record with `malloc`) exactly when the C string in the name buffer is `IOHIDPointing`, and
calls `IOServiceAddInterestNotification` for the node exactly when moreover the allocation
succeeded; a node whose name differs leaves the counter, the allocated records and the
registrations as they were, and so does a whole batch none of whose readable names is
`IOHIDPointing`. -/
theorem C4_classifier_exact (n : Node) (w : World) (batch : List Device)
    (h : n.nameKr = KERN_SUCCESS) :
    (Call.malloc ∈ newCalls w (nodeBody n w) ↔ cstr n.name = IOHIDPointing) ∧
    (subscriptionCalls (newCalls w (nodeBody n w)) =
      if cstr n.name = IOHIDPointing ∧ n.mallocOk = true then [n.temp] else []) ∧
    (cstr n.name ≠ IOHIDPointing → sameRecords w (nodeBody n w)) ∧
    ((∀ d ∈ batch, ∀ m ∈ d.nodes, m.nameKr = KERN_SUCCESS → cstr m.name ≠ IOHIDPointing) →
      sameRecords w (DeviceAdded batch w)) := by
  refine ⟨?_, ?_, fun hn => nodeBody_frame n w (fun _ => hn), DeviceAdded_frame batch w⟩
  · rw [nodeBody_newCalls]
    by_cases hn : cstr n.name = IOHIDPointing <;> by_cases hm : n.mallocOk = true <;>
      by_cases hi : n.interestKr = KERN_SUCCESS <;> simp [h, hn, hm, hi]
  · rw [nodeBody_newCalls]
    by_cases hn : cstr n.name = IOHIDPointing <;> by_cases hm : n.mallocOk = true <;>
      by_cases hi : n.interestKr = KERN_SUCCESS <;> simp [h, hn, hm, hi, subscriptionCalls]

/-- C4 on concrete nodes: the node named `IOHIDPointing` is allocated a record and a batch
with a USB storage device leaves the counter at 0; names that differ in case, are longer or are
shorter than `IOHIDPointing` are not allocated a record. -/
theorem C4_classifier_exact_witness :
    (namedNode 12 "IOHIDPointing").nameKr = KERN_SUCCESS ∧
    Call.malloc ∈ newCalls World.start (nodeBody (namedNode 12 "IOHIDPointing") World.start) ∧
    sameRecords World.start (DeviceAdded [usbStorage 40] World.start) ∧
    (DeviceAdded [usbStorage 40] World.start).g_MouseCount = 0 ∧
    Call.malloc ∉ newCalls World.start (nodeBody (namedNode 12 "iohidpointing") World.start) ∧
    Call.malloc ∉ newCalls World.start (nodeBody (namedNode 12 "IOHIDPointingX") World.start) ∧
    Call.malloc ∉ newCalls World.start (nodeBody (namedNode 12 "IOHIDPoint") World.start) :=
  ⟨by decide,
   (C4_classifier_exact (namedNode 12 "IOHIDPointing") World.start [usbStorage 40]
      (by decide)).1.mpr (by decide),
   (C4_classifier_exact (namedNode 12 "IOHIDPointing") World.start [usbStorage 40]
      (by decide)).2.2.2 (by decide),
   by decide, by decide, by decide, by decide⟩

/-- C5, the code at the failing input: one `IOHIDPointing` node whose record is allocated and
whose interest registration is refused.  The counter stays 0 and no registration exists, but
the record allocated for the node (address 1) is still on the heap afterwards and `free` was
never called: line 90 leaves the loop body with `continue` without `free(pData)`. -/
theorem C5_refused_registration_leaks_record :
    (DeviceAdded refusedMouse World.start).g_MouseCount = 0 ∧
    (DeviceAdded refusedMouse World.start).live = [] ∧
    World.start.allocated = [] ∧
    (DeviceAdded refusedMouse World.start).allocated = [1] ∧
    Call.free 1 ∉ (DeviceAdded refusedMouse World.start).calls ∧
    (DeviceAdded refusedMouse World.start).out = [.addInterestReturned kIOReturnError] := by
  decide

/-! ## `main` -/

/-- The function `main` returns a non-zero status exactly when the master port or the matching
dictionary could not be obtained; it then has a result whatever the events, has run neither
`DeviceAdded` nor the run loop and has written the error line. -/
theorem main_status (s : Startup) :
    ((s.masterKr ≠ 0 ∨ s.masterPort = 0) ∨ s.matchingDict = 0 →
      ∃ e, main s = some e ∧ e.status = -1 ∧ e.ranDeviceAdded = false ∧
        e.ranRunLoop = false ∧
        (e.world.out.getLast? = some (.noMasterPort s.masterKr) ∨
         e.world.out.getLast? = some .noMatchingDict)) ∧
    (∀ e, main s = some e →
      (e.status ≠ 0 ↔ (s.masterKr ≠ 0 ∨ s.masterPort = 0) ∨ s.matchingDict = 0)) := by
  unfold main
  by_cases h1 : s.masterKr ≠ 0 ∨ s.masterPort = 0
  · refine ⟨fun _ => ?_, ?_⟩
    · simp [h1, World.printf]
    · intro e he
      simp only [h1, if_true, Option.some.injEq] at he
      rw [← he]
      simp [h1]
  · by_cases h2 : s.matchingDict = 0
    · refine ⟨fun _ => ?_, ?_⟩
      · simp [h1, h2, World.printf]
      · intro e he
        simp only [h1, h2, if_true, if_false, Option.some.injEq] at he
        rw [← he]
        simp [h2]
    · refine ⟨fun hc => ?_, ?_⟩
      · rcases hc with hc | hc
        · exact absurd hc h1
        · exact absurd hc h2
      · intro e he
        simp only [h1, h2, if_false] at he
        cases hr : runLoop s.events (DeviceAdded s.addedIter
            (if s.sigtermErr = true then
              (if s.sigintErr = true then World.start.printf .noSigint
               else World.start).printf .noSigterm
             else if s.sigintErr = true then World.start.printf .noSigint
               else World.start)) with
        | none => rw [hr] at he; simp at he
        | some v =>
          rw [hr] at he
          simp only [Option.some.injEq] at he
          rw [← he]
          simp [h1, h2]

/-- C8, the code at the failing input: the master port, the matching dictionary and the
notification port are obtained and `IOServiceAddMatchingNotification` fails.  The return code
is stored in `kr` and never tested (line 165): `main` goes on to run `DeviceAdded` and the run
loop, reports no error, and returns 0 when the run loop comes back. -/
theorem C8_registration_failure_not_fatal :
    registrationFails.matchingKr ≠ KERN_SUCCESS ∧
    (main registrationFails).map Exit.status = some 0 ∧
    (main registrationFails).map Exit.ranDeviceAdded = some true ∧
    (main registrationFails).map Exit.ranRunLoop = some true ∧
    (main registrationFails).map (fun e => e.world.out) = some [.backFromRunLoop] := by
  decide

/-! ## The output -/

theorem countLines_append (l m : List LogLine) :
    countLines (l ++ m) = countLines l ++ countLines m := by
  induction l with
  | nil => rfl
  | cons c cs ih => cases c <;> simp [countLines, ih]

/-- The lines the body of the inner loop writes: the count line after a subscription, the
error line after a refused registration, nothing otherwise. -/
theorem nodeBody_out (n : Node) (w : World) :
    (nodeBody n w).out = w.out ++
      (if n.subscribed = true then [.mouseCount (w.g_MouseCount + 1)]
       else if n.nameKr = KERN_SUCCESS ∧ cstr n.name = IOHIDPointing ∧ n.mallocOk = true ∧
          n.interestKr ≠ KERN_SUCCESS then [.addInterestReturned n.interestKr]
       else []) := by
  by_cases hk : n.nameKr = KERN_SUCCESS
  swap
  · rw [nodeBody_unreadable n w hk]; simp [subscribed_iff, hk, World.call]
  by_cases hn : cstr n.name = IOHIDPointing
  swap
  · rw [nodeBody_other n w hk hn]; simp [subscribed_iff, hn, World.call]
  by_cases hm : n.mallocOk = true
  swap
  · rw [nodeBody_nomem n w hk hn (by simpa using hm)]; simp [subscribed_iff, hm, World.call]
  by_cases hi : n.interestKr = KERN_SUCCESS
  · rw [nodeBody_subscribed n w hk hn hm hi]; simp [subscribed_iff, hk, hn, hm, hi]
  · rw [nodeBody_refused n w hk hn hm hi]; simp [subscribed_iff, hk, hn, hm, hi]

theorem announced_of_quiet {c0 : Int} {w w' : World} (h : Announced c0 w)
    (ho : countLines w'.out = countLines w.out) (hc : w'.g_MouseCount = w.g_MouseCount) :
    Announced c0 w' := by
  unfold Announced lastCount at *
  rw [ho, hc]
  exact h

theorem announced_of_line {c0 : Int} {w' : World} (l : List LogLine)
    (ho : w'.out = l ++ [.mouseCount w'.g_MouseCount]) : Announced c0 w' := by
  right
  unfold lastCount
  rw [ho, countLines_append]
  simp [countLines]

theorem announced_nodeBody (c0 : Int) (n : Node) (w : World) (h : Announced c0 w) :
    Announced c0 (nodeBody n w) := by
  have ho := nodeBody_out n w
  have hc := nodeBody_count n w
  by_cases hs : n.subscribed = true
  · rw [if_pos hs] at ho hc
    exact announced_of_line w.out (by rw [ho, hc])
  · rw [if_neg hs] at ho hc
    refine announced_of_quiet h ?_ (by rw [hc]; simp)
    rw [ho, countLines_append]
    split <;> simp [countLines]

theorem announced_nodeLoop (c0 : Int) (ns : List Node) (w : World) (h : Announced c0 w) :
    Announced c0 (nodeLoop ns w) := by
  induction ns generalizing w with
  | nil => exact h
  | cons n ns ih => exact ih _ (announced_nodeBody c0 n w h)

theorem announced_deviceBody (c0 : Int) (d : Device) (w : World) (h : Announced c0 w) :
    Announced c0 (deviceBody d w) := by
  unfold deviceBody
  by_cases hk : d.iterKr = KERN_SUCCESS
  · rw [if_neg (by simp [hk])]
    have h1 : Announced c0 (w.call (.IORegistryEntryCreateIterator d.service)) :=
      announced_of_quiet h rfl rfl
    exact announced_of_quiet (announced_nodeLoop c0 d.nodes _ h1) rfl rfl
  · rw [if_pos (Ne.symm hk)]
    refine announced_of_quiet h ?_ rfl
    simp [World.printf, World.call, countLines_append, countLines]

theorem announced_DeviceAdded (c0 : Int) (batch : List Device) (w : World)
    (h : Announced c0 w) : Announced c0 (DeviceAdded batch w) := by
  induction batch generalizing w with
  | nil => exact h
  | cons d ds ih => exact ih _ (announced_deviceBody c0 d w h)

theorem announced_runLoop (c0 : Int) (es : List Event) (w w' : World)
    (hr : runLoop es w = some w') (h : Announced c0 w) : Announced c0 w' := by
  induction es generalizing w with
  | nil =>
    simp only [runLoop, Option.some.injEq] at hr
    rw [← hr]; exact h
  | cons e es ih =>
    simp only [runLoop] at hr
    cases hd : dispatch e w with
    | none => rw [hd] at hr; simp at hr
    | some v =>
      rw [hd] at hr
      apply ih v hr
      cases e with
      | arrival iter1 =>
        simp only [dispatch, Option.some.injEq] at hd
        rw [← hd]
        exact announced_DeviceAdded c0 iter1 w h
      | interest r s m a =>
        simp only [dispatch] at hd
        by_cases hm : m = kIOMessageServiceIsTerminated
        · subst hm
          cases hn : w.notificationOf r with
          | none =>
            rw [DeviceNotification_undefined r s a w hn] at hd
            simp at hd
          | some n =>
            rw [DeviceNotification_terminated r s a n w hn, Option.some.injEq] at hd
            rw [← hd]
            exact announced_of_line w.out rfl
        · rw [DeviceNotification_ignored r s m a w hm, Option.some.injEq] at hd
          rw [← hd]; exact h

/-- C9: every change of `g_MouseCount` appends exactly one count line carrying the new value.
In `DeviceAdded` a node raises the counter by one exactly when it is subscribed, and then
exactly one count line, with the new value, is added to the count lines of the output;
`DeviceNotification` on the "service terminated" message, called with a `refCon` that is a
record, has a result and appends exactly the count line of the value it leaves.
Consequently, after every sequence of events the program processes on an empty output, either
no count line was written and the counter has not changed, or the last count line carries
the current value of the counter. -/
theorem C9_count_line_on_every_change (n : Node) (refCon : Ptr) (service : io_object_t)
    (arg : Nat) (es : List Event) (w : World) :
    (nodeBody n w).g_MouseCount = w.g_MouseCount + (if n.subscribed = true then 1 else 0) ∧
    countLines (nodeBody n w).out = countLines w.out ++
      (if n.subscribed = true then [(nodeBody n w).g_MouseCount] else []) ∧
    (∀ m, w.notificationOf refCon = some m →
      ∃ w', DeviceNotification refCon service kIOMessageServiceIsTerminated arg w = some w' ∧
        w'.out = w.out ++ [.mouseCount w'.g_MouseCount]) ∧
    (∀ w', DeviceNotification refCon service kIOMessageServiceIsTerminated arg w = some w' →
      w'.out = w.out ++ [.mouseCount w'.g_MouseCount]) ∧
    (∀ wr, runLoop es { w with out := [] } = some wr →
      (lastCount wr.out = none ∧ wr.g_MouseCount = w.g_MouseCount) ∨
        lastCount wr.out = some wr.g_MouseCount) := by
  refine ⟨nodeBody_count n w, ?_, ?_, ?_, ?_⟩
  · rw [nodeBody_out, nodeBody_count, countLines_append]
    by_cases hs : n.subscribed = true
    · simp [hs, countLines]
    · rw [if_neg hs, if_neg hs]
      split <;> simp [countLines]
  · intro m hm
    exact ⟨_, DeviceNotification_terminated refCon service arg m w hm, rfl⟩
  · intro w' hw'
    cases hn : w.notificationOf refCon with
    | none =>
      rw [DeviceNotification_undefined refCon service arg w hn] at hw'
      simp at hw'
    | some m =>
      rw [DeviceNotification_terminated refCon service arg m w hn, Option.some.injEq] at hw'
      rw [← hw']
  · intro wr hwr
    exact announced_runLoop w.g_MouseCount es { w with out := [] } wr hwr (Or.inl ⟨rfl, rfl⟩)

/-- C9 on the scenario of the specification: the run has a result, its last count line is 1
and the counter is 1; the termination callback to the record of a plugged-in mouse has a
result and appends the count line of the value it leaves. -/
theorem C9_count_line_on_every_change_witness :
    (DeviceAdded [usbMouse 10] World.start).notificationOf 1 = some 1 ∧
    (runLoop plugScenario World.start).map (fun wr => (lastCount wr.out, wr.g_MouseCount))
      = some (some 1, 1) ∧
    (∃ w', DeviceNotification 1 12 kIOMessageServiceIsTerminated 0
        (DeviceAdded [usbMouse 10] World.start) = some w' ∧
      w'.out = (DeviceAdded [usbMouse 10] World.start).out ++ [.mouseCount w'.g_MouseCount]) :=
  ⟨by decide, by decide,
   (C9_count_line_on_every_change (namedNode 12 "IOHIDPointing") 1 12 0 plugScenario
      (DeviceAdded [usbMouse 10] World.start)).2.2.1 1 (by decide)⟩

/-! ## The error lines -/

theorem nodeBody_errorLines (n : Node) (w : World) :
    errorLines (nodeBody n w).out = errorLines w.out + n.reported := by
  rw [nodeBody_out]
  unfold errorLines Node.reported
  rw [List.countP_append]
  by_cases hs : n.subscribed = true
  · have h := (subscribed_iff n).mp hs
    simp [hs, h.2.2.2, LogLine.isDeviceError]
  · rw [if_neg hs]
    split <;> simp [LogLine.isDeviceError]

theorem nodeLoop_errorLines (ns : List Node) (w : World) :
    errorLines (nodeLoop ns w).out = errorLines w.out + (ns.map Node.reported).sum := by
  induction ns generalizing w with
  | nil => simp [nodeLoop]
  | cons n ns ih =>
    rw [nodeLoop, ih, nodeBody_errorLines, List.map_cons, List.sum_cons, Nat.add_assoc]

theorem deviceBody_errorLines (d : Device) (w : World) :
    errorLines (deviceBody d w).out = errorLines w.out + d.reported := by
  unfold deviceBody Device.reported
  by_cases hk : d.iterKr = KERN_SUCCESS
  · rw [if_neg (by simp [hk]), if_neg (by simp [hk])]
    have := nodeLoop_errorLines d.nodes (w.call (.IORegistryEntryCreateIterator d.service))
    simpa [World.call] using this
  · rw [if_pos (Ne.symm hk), if_pos hk]
    simp [World.printf, World.call, errorLines, List.countP_append, LogLine.isDeviceError]

/-- C10 as stated fails: a device whose only node has an unreadable name.  The batch holds one
per-device error and `DeviceAdded` writes nothing at all: line 80 skips the node with a bare
`continue`. -/
theorem C10_unreadable_name_counterexample :
    errorsIn unnamedNode = 1 ∧
    (DeviceAdded unnamedNode World.start).out = [] ∧
    errorLines (DeviceAdded unnamedNode World.start).out = 0 := by
  decide

/-- C10, amended: for every arrival batch, each traversal-start failure of a device and each
refused interest registration of an `IOHIDPointing` node appends exactly one error line, and
nothing else does: the number of error lines `DeviceAdded` writes for a batch is the number
of these errors in it.  (A node whose name cannot be read is skipped without a line.) -/
theorem C10_reported_errors_logged (batch : List Device) (w : World) :
    errorLines (DeviceAdded batch w).out = errorLines w.out + reportedIn batch := by
  induction batch generalizing w with
  | nil => simp [DeviceAdded, reportedIn]
  | cons d ds ih =>
    rw [DeviceAdded, ih, deviceBody_errorLines]
    simp only [reportedIn, List.map_cons, List.sum_cons]
    omega

/-- C10, amended, on a batch with a device whose traversal does not start and a mouse whose
interest registration is refused: two reported errors, two error lines. -/
theorem C10_reported_errors_logged_witness :
    reportedIn twoReported = 2 ∧
    (DeviceAdded twoReported World.start).out =
      [.createIteratorReturned kIOReturnError, .addInterestReturned kIOReturnError] ∧
    errorLines (DeviceAdded twoReported World.start).out =
      errorLines World.start.out + reportedIn twoReported :=
  ⟨by decide, by decide, C10_reported_errors_logged twoReported World.start⟩

/-! ## The text of the lines -/

/-- The lines as `printf` writes them, on the values of the examples. -/
theorem render_examples :
    (LogLine.mouseCount 2).render = "mouse count is now: 2\n" ∧
    (LogLine.addInterestReturned kIOReturnError).render =
      "IOServiceAddInterestNotification returned 0xe00002bc\n" ∧
    (LogLine.createIteratorReturned 5).render =
      "IORegistryEntryCreateIterator returned 0x00000005\n" ∧
    (LogLine.noMasterPort 5).render = "ERR: Couldn't create a master IOKit Port(00000005)\n" := by
  decide

end VoodooPS2Daemon
